import Mathlib

/-!
Shallow embedding of `betamax/new_cassette.py` (class `NewCassette`), the
record/replay cassette core, together with the collaborator contracts it
consumes.  Everything in the `NewCassette` namespace is translated directly
from the source file; collaborators that the source imports from modules not
present in the sample (`Interaction`, the matcher and serializer registries,
`SerializerProxy`, `serialize_prepared_request`, `serialize_response`,
`timestamp`) are modelled from the specification and carry a doc comment
saying so.

Modelling conventions:
* Python exceptions are an explicit `PyErr` error value in an `Except`.
* A Python attribute that a method reads but that `__init__` may leave
  unassigned is an `Option` field; reading `none` is an `AttributeError`.
* Mutation of `self` becomes explicit state passing: a method that mutates
  the cassette returns the new `NewCassette`; the single external write
  (`serializer.serialize(data)`) is modelled by returning the written
  payload alongside the new state.
* Python dictionaries keyed by strings are association lists; the truthiness
  test `not self.serialized` is `pyTruthy`.
-/

set_option autoImplicit false

/-- An incoming request (`requests.PreparedRequest`), modelled as its textual
serialized form. -/
abbrev Request := String

/-- An HTTP response, modelled as its textual serialized form. -/
abbrev Response := String

/-- Modelled from the spec: a placeholder rule is a pair (tag, literal); the
source reads the fields `placeholder` (the tag written to disk) and
`replace` (the literal used in memory). -/
structure Placeholder where
  placeholder : String
  replace : String
deriving DecidableEq, Repr

/-- Modelled from the spec: the `key_order` argument of
`Interaction.replace_all` selects the direction of substitution.  The load
path passes `(placeholder, replace)` (tag to literal); the sanitize path uses
the default `(replace, placeholder)` (literal to tag). -/
inductive Direction where
  | placeholderToReplace
  | replaceToPlaceholder
deriving DecidableEq, Repr

/-- Modelled from the spec: the serialized payload of one interaction, with
the request and response flattened to their textual serialized forms and the
capture timestamp. -/
structure InteractionData where
  request : String
  response : String
  recorded_at : String
deriving DecidableEq, Repr

/-- Modelled from the spec: `Interaction` (imported from `betamax.cassette`,
not part of the sample) wraps the serialized payload of one recorded
request/response pair; `json` is the underlying payload. -/
structure Interaction where
  json : InteractionData
deriving DecidableEq, Repr

/-- Substitute one placeholder rule in one string, in the given direction. -/
def substPlaceholder (d : Direction) (p : Placeholder) (s : String) : String :=
  match d with
  | Direction.placeholderToReplace => s.replace p.placeholder p.replace
  | Direction.replaceToPlaceholder => s.replace p.replace p.placeholder

/-- Modelled from the spec: `Interaction.replace_all` performs textual
substitution across all string fields of the stored request and response,
in the direction selected by `key_order`. -/
def Interaction.replace_all (i : Interaction) (ps : List Placeholder) (d : Direction) :
    Interaction :=
  ⟨{ i.json with
      request := ps.foldl (fun s p => substPlaceholder d p s) i.json.request,
      response := ps.foldl (fun s p => substPlaceholder d p s) i.json.response }⟩

/-- Modelled from the spec: `Interaction.match(matchers)` returns true iff
every predicate in the supplied sequence returns true against the stored
request of this interaction; the empty sequence matches everything. -/
def Interaction.match_ (i : Interaction) (matchers : List (String → Bool)) : Bool :=
  matchers.all (fun m => m i.json.request)

/-- Modelled from the spec: a matcher compares the incoming request to a
recorded request along one dimension. -/
structure Matcher where
  match_ : Request → String → Bool

/-- Modelled from the spec: the matcher registry maps matcher names to
matcher capabilities; indexing a missing name is a lookup error. -/
abbrev MatcherRegistry := List (String × Matcher)

/-- Modelled from the spec: a serializer capability, identified by its
format name. -/
structure Serializer where
  name : String
deriving DecidableEq, Repr

/-- Modelled from the spec: the serializer registry maps format names to
serializer capabilities; `get` on a missing format yields `none`. -/
abbrev SerializerRegistry := List (String × Serializer)

/-- Modelled from the spec: `SerializerProxy(serializer, cassette_name,
allow_serialization)` wraps a serializer with the cassette name and the
recording flag passed at construction. -/
structure SerializerProxy where
  serializer : Serializer
  cassette_name : String
  allow_serialization : Bool
deriving DecidableEq, Repr

/-- A value stored under a key of the deserialized cassette mapping: either
the list of serialized interactions or a plain string field. -/
inductive StoreVal where
  | interactions (l : List InteractionData)
  | str (s : String)
deriving DecidableEq, Repr

/-- The deserialized form of the backing store: a string-keyed mapping
following the persisted schema (`http_interactions`, `recorded_with`). -/
structure CassetteData where
  entries : List (String × StoreVal)
deriving DecidableEq, Repr

/-- First-match association-list lookup, mirroring Python dict indexing on
the string-keyed mappings of the source. -/
def lookupAssoc {β : Type} : List (String × β) → String → Option β
  | [], _ => none
  | (k, v) :: rest, key => if k = key then some v else lookupAssoc rest key

/-- The value of `d.get(http_interactions, [])` on a schema-conformant
deserialized mapping. -/
def CassetteData.get_http_interactions (d : CassetteData) : List InteractionData :=
  match lookupAssoc d.entries "http_interactions" with
  | some (StoreVal.interactions l) => l
  | _ => []

/-- Python truthiness of `self.serialized`: `None` and the empty mapping are
falsy, a non-empty mapping is truthy. -/
def pyTruthy : Option CassetteData → Bool
  | none => false
  | some d => !d.entries.isEmpty

/-- The Python exceptions the embedded operations can raise. -/
inductive PyErr where
  | valueError
  | keyError
  | attributeError
  | configurationError
deriving DecidableEq, Repr

/-- The class-level `NewCassette.default_cassette_options` dictionary. -/
structure CassetteOptions where
  record_mode : String
  match_requests_on : List String
  re_record_interval : Option Nat
  placeholders : List Placeholder

/-- Source: the `default_cassette_options` class attribute. -/
def default_cassette_options : CassetteOptions :=
  { record_mode := "once"
    match_requests_on := ["method", "uri"]
    re_record_interval := none
    placeholders := [] }

/-- The attributes of a `NewCassette` instance, in the order `__init__`
assigns them.  `serialize_format` is listed because `serialize_interaction`
reads it, but `__init__` never assigns it, so construction leaves it `none`
(reading it then raises `AttributeError`). -/
structure NewCassette where
  cassette_name : String
  serialized : Option CassetteData
  record_mode : String
  serializer : SerializerProxy
  placeholders : List Placeholder
  interactions : List Interaction
  match_options : List String
  serialize_format : Option String
deriving DecidableEq, Repr

/-- Source `is_empty` over the raw attribute: `not self.serialized`. -/
def is_empty_fields (serialized : Option CassetteData) : Bool :=
  !pyTruthy serialized

/-- Source `is_recording` over the raw attributes: the literal dictionary
`values = (none, False), (once, is_empty())` consulted with the record mode
and default `True`. -/
def is_recording_fields (record_mode : String) (serialized : Option CassetteData) : Bool :=
  let values : List (String × Bool) :=
    [("none", false), ("once", is_empty_fields serialized)]
  (lookupAssoc values record_mode).getD true

/-- Source: `NewCassette.is_empty`. -/
def NewCassette.is_empty (c : NewCassette) : Bool :=
  is_empty_fields c.serialized

/-- Source: `NewCassette.is_recording`. -/
def NewCassette.is_recording (c : NewCassette) : Bool :=
  is_recording_fields c.record_mode c.serialized

/-- Source: `NewCassette.load_interactions`.  The result of
`self.serializer.deserialize()` is passed in as `deserialized` (the proxy is
external); it is consulted only when `self.serialized` is `None`.  The loop
hydrates every loaded interaction with the `(placeholder, replace)`
direction. -/
def NewCassette.load_interactions (c : NewCassette) (deserialized : CassetteData) :
    NewCassette :=
  let d := match c.serialized with
    | none => deserialized
    | some d0 => d0
  let loaded := d.get_http_interactions.map (fun j => Interaction.mk j)
  let hydrated := loaded.map
    (fun i => i.replace_all c.placeholders Direction.placeholderToReplace)
  { c with serialized := some d, interactions := hydrated }

/-- Source: `NewCassette.__init__`.  The serializer registry and the
deserialized store stand in for the external registry module and the proxy
read; `record_mode` and `placeholders` mirror `kwargs.get` with the class
defaults.  The recording flag handed to `SerializerProxy` is computed by the
call `self.is_recording()` made while `self.serialized` is still `None`. -/
def NewCassette.init (sreg : SerializerRegistry) (store : CassetteData)
    (cassette_name serialization_format : String)
    (record_mode_kw : Option String) (placeholders_kw : Option (List Placeholder)) :
    Except PyErr NewCassette :=
  let record_mode := record_mode_kw.getD default_cassette_options.record_mode
  match lookupAssoc sreg serialization_format with
  | none => Except.error PyErr.valueError
  | some serializer =>
    let proxy : SerializerProxy :=
      { serializer := serializer
        cassette_name := cassette_name
        allow_serialization := is_recording_fields record_mode none }
    let c : NewCassette :=
      { cassette_name := cassette_name
        serialized := none
        record_mode := record_mode
        serializer := proxy
        placeholders := placeholders_kw.getD default_cassette_options.placeholders
        interactions := []
        match_options := []
        serialize_format := none }
    Except.ok (c.load_interactions store)

/-- Source: the list comprehension building the curried matchers,
`partial(matcher_registry[o].match, request) for o in opts`; indexing a
missing name raises `KeyError`. -/
def curried_matchers (mreg : MatcherRegistry) (request : Request) :
    List String → Except PyErr (List (String → Bool))
  | [] => Except.ok []
  | o :: os =>
    match lookupAssoc mreg o with
    | none => Except.error PyErr.keyError
    | some m =>
      match curried_matchers mreg request os with
      | Except.error e => Except.error e
      | Except.ok ms => Except.ok ((fun recorded => m.match_ request recorded) :: ms)

/-- Source: the scan loop of `find_match`: the first interaction satisfying
`i.match(matchers)` is returned, except that in `all` record mode it is
removed from `self.interactions` (Python `list.remove`: first equal element)
and the loop breaks, falling through to `return None`. -/
def find_loop (record_mode : String) (p : Interaction → Bool) (c : NewCassette) :
    List Interaction → Option Interaction × NewCassette
  | [] => (none, c)
  | i :: rest =>
    if p i then
      if record_mode = "all" then
        (none, { c with interactions := c.interactions.erase i })
      else
        (some i, c)
    else find_loop record_mode p c rest

/-- Source: `NewCassette.find_match`. -/
def NewCassette.find_match (c : NewCassette) (mreg : MatcherRegistry) (request : Request) :
    Except PyErr (Option Interaction × NewCassette) :=
  match curried_matchers mreg request c.match_options with
  | Except.error e => Except.error e
  | Except.ok matchers =>
    Except.ok (find_loop c.record_mode (fun i => i.match_ matchers) c c.interactions)

/-- Source: `NewCassette.sanitize_interactions`: `replace_all` on every
interaction with the default `(replace, placeholder)` direction. -/
def NewCassette.sanitize_interactions (c : NewCassette) : NewCassette :=
  { c with interactions :=
      (c.interactions.map
        (fun i => i.replace_all c.placeholders Direction.replaceToPlaceholder)) }

/-- Source: `NewCassette._save_cassette`: sanitize, then hand the cassette
payload to `self.serializer.serialize`.  The written payload is returned
next to the new state. -/
def NewCassette._save_cassette (c : NewCassette) : NewCassette × CassetteData :=
  let c := c.sanitize_interactions
  let cassette_data : CassetteData :=
    ⟨[("http_interactions",
        StoreVal.interactions (c.interactions.map Interaction.json)),
      ("recorded_with", StoreVal.str "betamax/{version}")]⟩
  (c, cassette_data)

/-- Source: `NewCassette.eject`. -/
def NewCassette.eject (c : NewCassette) : NewCassette × CassetteData :=
  c._save_cassette

/-- Source: `NewCassette.clear`: drop the interactions, then serialize. -/
def NewCassette.clear (c : NewCassette) : NewCassette × CassetteData :=
  NewCassette._save_cassette { c with interactions := [] }

/-- Modelled from the spec: `serialize_prepared_request` (imported from
`betamax.cassette`, not in the sample) renders the request fields for the
given format. -/
def serialize_prepared_request (request : Request) (fmt : String) : String :=
  request ++ "@" ++ fmt

/-- Modelled from the spec: `serialize_response` (imported from
`betamax.cassette`, not in the sample) renders the response fields for the
given format. -/
def serialize_response (response : Response) (fmt : String) : String :=
  response ++ "@" ++ fmt

/-- Modelled from the spec: `timestamp` (imported from `betamax.cassette`,
not in the sample) yields the capture time. -/
def timestamp : String :=
  "1970-01-01T00:00:00"

/-- The structured record built by `serialize_interaction`. -/
structure SerializedInteraction where
  request : String
  response : String
  recorded_at : String
deriving DecidableEq, Repr

/-- Source: `NewCassette.serialize_interaction`.  It reads the attribute
`self.serialize_format`; an unassigned attribute read is an
`AttributeError`. -/
def NewCassette.serialize_interaction (c : NewCassette) (response : Response)
    (request : Request) : Except PyErr SerializedInteraction :=
  match c.serialize_format with
  | none => Except.error PyErr.attributeError
  | some fmt =>
    Except.ok
      { request := serialize_prepared_request request fmt
        response := serialize_response response fmt
        recorded_at := timestamp }

/-- Modelled from the spec: the operation that registers a match option on
the cassette is not part of the sample (`__init__` only initializes
`match_options` to the empty set); per the spec a missing matcher name is a
configuration error at match-option registration time, fail fast, not at
match time. -/
def NewCassette.register_match_option (c : NewCassette) (mreg : MatcherRegistry)
    (name : String) : Except PyErr NewCassette :=
  if (lookupAssoc mreg name).isSome then
    Except.ok { c with match_options := c.match_options ++ [name] }
  else
    Except.error PyErr.configurationError

/-! Concrete fixtures used by the witness and counterexample theorems. -/

/-- The registry of the concrete scenario: the single format `json`. -/
def serializerRegistryEx : SerializerRegistry :=
  [("json", ⟨"json"⟩)]

/-- A matcher registry with a single `uri` matcher comparing the textual
request forms for equality. -/
def matcherRegistryEx : MatcherRegistry :=
  [("uri", ⟨fun req recorded => req == recorded⟩)]

/-- A recorded `GET /users` interaction. -/
def interactionGet : Interaction :=
  ⟨⟨"GET /users", "id-1", "2020-01-01T00:00:00"⟩⟩

/-- A recorded `POST /users` interaction. -/
def interactionPost : Interaction :=
  ⟨⟨"POST /users", "created", "2020-01-02T00:00:00"⟩⟩

/-- A deserialized store holding the two sample interactions. -/
def storeSample : CassetteData :=
  ⟨[("http_interactions",
      StoreVal.interactions [interactionGet.json, interactionPost.json])]⟩

/-- A deserialized store that is a non-empty mapping holding zero
interactions: exactly the shape `clear()` persists. -/
def storeZero : CassetteData :=
  ⟨[("http_interactions", StoreVal.interactions [])]⟩

/-- A fallback cassette for extracting the payload of a successful
construction. -/
def fallbackCassette : NewCassette :=
  { cassette_name := ""
    serialized := none
    record_mode := ""
    serializer := ⟨⟨""⟩, "", false⟩
    placeholders := []
    interactions := []
    match_options := []
    serialize_format := none }

/-- A cassette in `all` record mode holding one matching interaction. -/
def cassetteAll : NewCassette :=
  { cassette_name := "sample"
    serialized := some storeSample
    record_mode := "all"
    serializer := ⟨⟨"json"⟩, "sample", true⟩
    placeholders := []
    interactions := [interactionGet]
    match_options := ["uri"]
    serialize_format := none }

/-- A cassette in `once` record mode holding both sample interactions. -/
def cassetteOnce : NewCassette :=
  { cassetteAll with record_mode := "once"
                     interactions := [interactionGet, interactionPost] }

/-- A cassette in the unrecognized-but-recording mode `new_episodes`. -/
def cassetteNewEpisodes : NewCassette :=
  { cassetteAll with record_mode := "new_episodes" }

/-- The cassette built by `__init__` from the sample store with the default
record mode. -/
def cassetteInitSample : NewCassette :=
  (NewCassette.init serializerRegistryEx storeSample "sample" "json"
      none none).toOption.getD fallbackCassette

/-- The cassette built by `__init__` from the sample store with record mode
`once` passed explicitly. -/
def cassetteInitOnce : NewCassette :=
  (NewCassette.init serializerRegistryEx storeSample "sample" "json"
      (some "once") none).toOption.getD fallbackCassette

/-- The cassette built by `__init__` in `once` mode from the non-empty
mapping with zero interactions. -/
def cassetteInitZero : NewCassette :=
  (NewCassette.init serializerRegistryEx storeZero "sample" "json"
      (some "once") none).toOption.getD fallbackCassette

/-! Helper lemmas shared by the claim theorems. -/

/-- When no interaction satisfies the predicate, the scan loop falls through
and yields absent with an unchanged cassette. -/
theorem find_loop_none (record_mode : String) (p : Interaction → Bool)
    (c : NewCassette) (l : List Interaction) (h : l.find? p = none) :
    find_loop record_mode p c l = (none, c) := by
  induction l with
  | nil => rfl
  | cons i rest ih =>
    rw [List.find?_cons] at h
    cases hp : p i with
    | true => rw [hp] at h; exact absurd h (by simp)
    | false =>
      rw [hp] at h
      rw [find_loop, hp]
      exact ih h
      
/-- When the first matching interaction is `i`, the scan loop either evicts
it (record mode `all`) or returns it unchanged. -/
theorem find_loop_some (record_mode : String) (p : Interaction → Bool)
    (c : NewCassette) (l : List Interaction) (i : Interaction)
    (h : l.find? p = some i) :
    find_loop record_mode p c l =
      if record_mode = "all" then
        (none, { c with interactions := c.interactions.erase i })
      else (some i, c) := by
  induction l with
  | nil => exact absurd h (by simp)
  | cons j rest ih =>
    rw [List.find?_cons] at h
    cases hp : p j with
    | true =>
      rw [hp] at h
      injection h with h
      subst h
      simp [find_loop, hp]
    | false =>
      rw [hp] at h
      rw [find_loop, hp]
      exact ih h

/-- Building the curried matcher list succeeds whenever every configured
match option is registered. -/
theorem curried_matchers_isOk (mreg : MatcherRegistry) (request : Request)
    (opts : List String) (h : ∀ o ∈ opts, (lookupAssoc mreg o).isSome) :
    ∃ ms, curried_matchers mreg request opts = Except.ok ms := by
  induction opts with
  | nil => exact ⟨[], rfl⟩
  | cons o os ih =>
    obtain ⟨m, hm⟩ := Option.isSome_iff_exists.mp (h o (by simp))
    obtain ⟨ms, hms⟩ := ih (fun x hx => h x (by simp [hx]))
    exact ⟨_, by rw [curried_matchers, hm, hms]⟩

/-- The record-mode dictionary of `is_recording`, written out as a case
split: `none` is never recording, `once` defers to emptiness, every other
mode defaults to recording. -/
theorem is_recording_fields_eq (mode : String) (s : Option CassetteData) :
    is_recording_fields mode s =
      if mode = "none" then false
      else if mode = "once" then is_empty_fields s
      else true := by
  by_cases h1 : mode = "none"
  · subst h1; rfl
  · by_cases h2 : mode = "once"
    · subst h2; rfl
    · have h1n : ¬("none" = mode) := fun h => h1 h.symm
      have h2n : ¬("once" = mode) := fun h => h2 h.symm
      simp [is_recording_fields, lookupAssoc, h1, h2, h1n, h2n]

/-- Characterization of every attribute of a successfully constructed
cassette: the store is cached, the kwargs defaults apply, the recording flag
of the proxy is computed with `serialized` still unset, the interactions are
the hydrated store contents, and `serialize_format` is left unassigned. -/
theorem init_ok_spec (sreg : SerializerRegistry) (store : CassetteData)
    (name fmt : String) (rm : Option String) (ph : Option (List Placeholder))
    (c : NewCassette)
    (h : NewCassette.init sreg store name fmt rm ph = Except.ok c) :
    c.cassette_name = name ∧
    c.serialized = some store ∧
    c.record_mode = rm.getD "once" ∧
    c.serializer.allow_serialization = is_recording_fields (rm.getD "once") none ∧
    c.placeholders = ph.getD [] ∧
    c.match_options = [] ∧
    c.serialize_format = none ∧
    c.interactions = store.get_http_interactions.map
      (fun j => (Interaction.mk j).replace_all (ph.getD [])
        Direction.placeholderToReplace) := by
  unfold NewCassette.init at h
  cases hl : lookupAssoc sreg fmt with
  | none =>
    rw [hl] at h
    exact absurd h (by simp)
  | some s =>
    rw [hl] at h
    injection h with h
    subst h
    refine ⟨rfl, rfl, rfl, rfl, rfl, rfl, rfl, ?_⟩
    simp [NewCassette.load_interactions, default_cassette_options, List.map_map]

/-! Claim theorems. -/

/-- C1 counterexample: in `all` record mode, with the single stored
interaction matching the request under the configured `uri` matcher,
`find_match` does remove it from the sequence but returns absent (`None`),
not the removed interaction: after finding the match the loop breaks and
falls through to `return None`. -/
theorem find_match_all_returns_absent_cex :
    cassetteAll.record_mode = "all" ∧
    cassetteAll.interactions = [interactionGet] ∧
    cassetteAll.find_match matcherRegistryEx "GET /users" =
      Except.ok (none, { cassetteAll with interactions := [] }) :=
  ⟨rfl, rfl, rfl⟩

/-- C1 (amended): for every cassette in `all` record mode whose curried
matchers are well defined and for every request some interaction matches,
`find_match` removes the first matching interaction from the sequence and
returns absent (`None`), not the removed interaction. -/
theorem find_match_all_evicts (c : NewCassette) (mreg : MatcherRegistry)
    (request : Request) (ms : List (String → Bool)) (i : Interaction)
    (hms : curried_matchers mreg request c.match_options = Except.ok ms)
    (hall : c.record_mode = "all")
    (hfind : c.interactions.find? (fun j => j.match_ ms) = some i) :
    c.find_match mreg request =
      Except.ok (none, { c with interactions := c.interactions.erase i }) := by
  unfold NewCassette.find_match
  rw [hms]
  dsimp only
  rw [find_loop_some _ _ _ _ _ hfind, hall]
  simp

/-- C1 witness: the amended eviction law applied to the concrete `all`-mode
cassette. -/
theorem find_match_all_evicts_witness :
    cassetteAll.find_match matcherRegistryEx "GET /users" =
      Except.ok (none,
        { cassetteAll with
            interactions := cassetteAll.interactions.erase interactionGet }) :=
  find_match_all_evicts cassetteAll matcherRegistryEx "GET /users" _
    interactionGet rfl rfl rfl

/-- C2: a match-option name missing from the matcher registry fails eagerly
at registration time with the configuration error, and on a well-formed
cassette (every configured match option registered) `find_match` never fails
with a lookup error at match time. -/
theorem match_option_fail_fast (c : NewCassette) (mreg : MatcherRegistry)
    (name : String) (request : Request) :
    (lookupAssoc mreg name = none →
      c.register_match_option mreg name = Except.error PyErr.configurationError) ∧
    ((∀ o ∈ c.match_options, (lookupAssoc mreg o).isSome) →
      (c.find_match mreg request).toOption.isSome = true) := by
  constructor
  · intro h
    unfold NewCassette.register_match_option
    simp [h]
  · intro h
    obtain ⟨ms, hms⟩ := curried_matchers_isOk mreg request c.match_options h
    unfold NewCassette.find_match
    rw [hms]
    rfl

/-- C2 witness: registering the unknown matcher name `bogus` fails eagerly,
while `find_match` on the well-formed concrete cassette succeeds. -/
theorem match_option_fail_fast_witness :
    cassetteOnce.register_match_option matcherRegistryEx "bogus" =
      Except.error PyErr.configurationError ∧
    (cassetteOnce.find_match matcherRegistryEx "GET /users").toOption.isSome
      = true :=
  ⟨(match_option_fail_fast cassetteOnce matcherRegistryEx "bogus"
      "GET /users").1 rfl,
   (match_option_fail_fast cassetteOnce matcherRegistryEx "bogus"
      "GET /users").2 (by decide)⟩

/-- C3: on every cassette whose construction succeeded,
`serialize_interaction` is not total: it raises `AttributeError`, because it
reads `self.serialize_format` and `__init__` never assigns that attribute
(it only uses its local `serialization_format` parameter). -/
theorem serialize_interaction_raises (sreg : SerializerRegistry)
    (store : CassetteData) (name fmt : String) (rm : Option String)
    (ph : Option (List Placeholder)) (c : NewCassette)
    (response : Response) (request : Request)
    (h : NewCassette.init sreg store name fmt rm ph = Except.ok c) :
    c.serialize_interaction response request =
      Except.error PyErr.attributeError := by
  have hsf := (init_ok_spec sreg store name fmt rm ph c h).2.2.2.2.2.2.1
  unfold NewCassette.serialize_interaction
  rw [hsf]

/-- C3 witness: the freshly constructed sample cassette raises
`AttributeError` from `serialize_interaction`. -/
theorem serialize_interaction_raises_witness :
    cassetteInitSample.serialize_interaction "resp-1" "GET /users" =
      Except.error PyErr.attributeError :=
  serialize_interaction_raises serializerRegistryEx storeSample "sample"
    "json" none none cassetteInitSample "resp-1" "GET /users" rfl

/-- C4 counterexample: a store that is a non-empty mapping holding zero
interactions (the exact shape `clear()` persists) refutes the claim that
`is_empty()` is true iff the deserialized store contained zero interactions:
`once`-mode construction from that store loads zero interactions yet
`is_empty()` is false, because `is_empty` tests the truthiness of the whole
deserialized mapping, not the interaction count. -/
theorem is_empty_not_interaction_count_cex :
    cassetteInitZero.record_mode = "once" ∧
    cassetteInitZero.serialized = some storeZero ∧
    storeZero.get_http_interactions = [] ∧
    cassetteInitZero.interactions = [] ∧
    cassetteInitZero.is_empty = false :=
  ⟨rfl, rfl, rfl, rfl, rfl⟩

/-- C4 (amended): for every cassette constructed in `once` record mode,
`is_empty()` (and hence `is_recording()`) is true iff the deserialized store
mapping was empty (Python-falsy) — not iff it contained zero interactions —
and the verdict depends only on the initially loaded store: it is unchanged
after `clear()` empties the in-memory interaction sequence. -/
theorem once_is_empty_from_initial_store (sreg : SerializerRegistry)
    (store : CassetteData) (name fmt : String) (ph : Option (List Placeholder))
    (c : NewCassette)
    (h : NewCassette.init sreg store name fmt (some "once") ph = Except.ok c) :
    c.is_empty = store.entries.isEmpty ∧
    ((c.clear).1).is_empty = c.is_empty ∧
    c.is_recording = c.is_empty := by
  obtain ⟨-, hser, hmode, -⟩ := init_ok_spec sreg store name fmt (some "once") ph c h
  refine ⟨?_, rfl, ?_⟩
  · rw [NewCassette.is_empty, hser]
    simp [is_empty_fields, pyTruthy]
  · rw [NewCassette.is_recording, is_recording_fields_eq, hmode]
    rfl

/-- C4 witness: the amended law applied to `once`-mode construction from the
non-empty sample store; emptiness stays false even after `clear()`. -/
theorem once_is_empty_from_initial_store_witness :
    cassetteInitOnce.is_empty = false ∧
    ((cassetteInitOnce.clear).1).is_empty = false ∧
    cassetteInitOnce.is_recording = false := by
  have h := once_is_empty_from_initial_store serializerRegistryEx storeSample
    "sample" "json" none cassetteInitOnce rfl
  refine ⟨?_, ?_, ?_⟩
  · rw [h.1]; rfl
  · rw [h.2.1, h.1]; rfl
  · rw [h.2.2, h.1]; rfl

/-- C5: construction computes `is_recording()` for the `SerializerProxy`
before `load_interactions()` runs, while `self.serialized` is still `None`
(hence `is_empty()` is vacuously true); therefore the proxy recording flag
is true for `once` and for every recording mode, regardless of the contents
of the backing store. -/
theorem proxy_recording_flag_at_construction (sreg : SerializerRegistry)
    (store : CassetteData) (name fmt : String) (rm : Option String)
    (ph : Option (List Placeholder)) (c : NewCassette)
    (h : NewCassette.init sreg store name fmt rm ph = Except.ok c) :
    c.serializer.allow_serialization =
      is_recording_fields (rm.getD "once") none ∧
    (rm.getD "once" ≠ "none" → c.serializer.allow_serialization = true) := by
  have hflag := (init_ok_spec sreg store name fmt rm ph c h).2.2.2.1
  refine ⟨hflag, fun hne => ?_⟩
  rw [hflag, is_recording_fields_eq]
  by_cases h2 : rm.getD "once" = "once" <;>
    simp [hne, h2, is_empty_fields, pyTruthy]

/-- C5 witness: `once`-mode construction from the non-empty sample store
still hands the proxy a true recording flag, even though after loading the
cassette itself reports not recording. -/
theorem proxy_recording_flag_at_construction_witness :
    cassetteInitOnce.serializer.allow_serialization = true ∧
    cassetteInitOnce.is_recording = false :=
  ⟨(proxy_recording_flag_at_construction serializerRegistryEx storeSample
      "sample" "json" (some "once") none cassetteInitOnce rfl).2 (by decide),
   rfl⟩

/-- C6: `is_recording()` is false for record mode `none`, equals
`is_empty()` for `once`, and is true for every other record mode
independently of the store; and it is a pure function of the current
`record_mode` and `serialized` attributes, recomputed on each call rather
than cached. -/
theorem is_recording_cases (c c2 : NewCassette) :
    (c.record_mode = "none" → c.is_recording = false) ∧
    (c.record_mode = "once" → c.is_recording = c.is_empty) ∧
    (c.record_mode ≠ "none" → c.record_mode ≠ "once" → c.is_recording = true) ∧
    (c.record_mode = c2.record_mode → c.serialized = c2.serialized →
      c.is_recording = c2.is_recording) := by
  refine ⟨?_, ?_, ?_, ?_⟩
  · intro h
    rw [NewCassette.is_recording, is_recording_fields_eq, h]
    rfl
  · intro h
    rw [NewCassette.is_recording, is_recording_fields_eq, h]
    rfl
  · intro h1 h2
    rw [NewCassette.is_recording, is_recording_fields_eq]
    simp [h1, h2]
  · intro h1 h2
    rw [NewCassette.is_recording, NewCassette.is_recording, h1, h2]

/-- C6 witness: the unrecognized record mode `new_episodes` is always
recording on the concrete cassette. -/
theorem is_recording_cases_witness :
    cassetteNewEpisodes.is_recording = true :=
  (is_recording_cases cassetteNewEpisodes cassetteNewEpisodes).2.2.1
    (by decide) (by decide)

/-- C7: constructing a cassette whose serialization format has no entry in
the serializer registry fails with the eager configuration error
(`ValueError` in the source) before any loading occurs — the outcome is
independent of the backing store — and construction with a registered format
never raises it. -/
theorem init_unknown_format_fails (sreg : SerializerRegistry)
    (store store2 : CassetteData) (name fmt : String) (rm : Option String)
    (ph : Option (List Placeholder)) :
    (lookupAssoc sreg fmt = none →
      NewCassette.init sreg store name fmt rm ph = Except.error PyErr.valueError ∧
      NewCassette.init sreg store name fmt rm ph =
        NewCassette.init sreg store2 name fmt rm ph) ∧
    ((lookupAssoc sreg fmt).isSome →
      (NewCassette.init sreg store name fmt rm ph).toOption.isSome = true) := by
  constructor
  · intro h
    constructor <;> simp [NewCassette.init, h]
  · intro h
    obtain ⟨s, hs⟩ := Option.isSome_iff_exists.mp h
    simp [NewCassette.init, hs]
    rfl

/-- C7 witness: the unregistered format `yaml` fails construction eagerly
with the same outcome for two different stores, while the registered format
`json` constructs successfully. -/
theorem init_unknown_format_fails_witness :
    NewCassette.init serializerRegistryEx storeSample "sample" "yaml" none none
      = Except.error PyErr.valueError ∧
    NewCassette.init serializerRegistryEx storeSample "sample" "yaml" none none
      = NewCassette.init serializerRegistryEx storeZero "sample" "yaml" none none ∧
    (NewCassette.init serializerRegistryEx storeSample "sample" "json" none
      none).toOption.isSome = true :=
  ⟨((init_unknown_format_fails serializerRegistryEx storeSample storeZero
      "sample" "yaml" none none).1 rfl).1,
   ((init_unknown_format_fails serializerRegistryEx storeSample storeZero
      "sample" "yaml" none none).1 rfl).2,
   (init_unknown_format_fails serializerRegistryEx storeSample storeZero
      "sample" "json" none none).2 (by decide)⟩

/-- C8: `load_interactions` is idempotent and memoized: once the cassette
holds a cached deserialized form, a repeated call leaves the state unchanged
whatever the backing store would now deserialize to (so `deserialize` is
consulted at most once per instance), and every loaded interaction is
immediately hydrated with the `(placeholder, replace)` tag-to-literal
substitution of the configured placeholders. -/
theorem load_interactions_memoized (c : NewCassette) (d d2 : CassetteData) :
    (c.load_interactions d).load_interactions d2 = c.load_interactions d ∧
    (c.load_interactions d).serialized = some (c.serialized.getD d) ∧
    (c.load_interactions d).interactions =
      ((c.serialized.getD d).get_http_interactions).map
        (fun j => (Interaction.mk j).replace_all c.placeholders
          Direction.placeholderToReplace) := by
  cases hs : c.serialized with
  | none =>
    refine ⟨?_, ?_, ?_⟩ <;>
      simp [NewCassette.load_interactions, hs, List.map_map]
  | some d0 =>
    refine ⟨?_, ?_, ?_⟩ <;>
      simp [NewCassette.load_interactions, hs, List.map_map]

/-- C9: outside `all` record mode, with well-defined curried matchers,
`find_match` scans the interaction sequence in insertion order and returns
exactly the first interaction satisfying all curried predicates, leaving the
cassette unchanged; when no interaction matches it returns absent without
raising. -/
theorem find_match_first_wins (c : NewCassette) (mreg : MatcherRegistry)
    (request : Request) (ms : List (String → Bool))
    (hms : curried_matchers mreg request c.match_options = Except.ok ms)
    (hmode : c.record_mode ≠ "all") :
    c.find_match mreg request =
      Except.ok (c.interactions.find? (fun j => j.match_ ms), c) := by
  unfold NewCassette.find_match
  rw [hms]
  dsimp only
  cases hf : c.interactions.find? (fun j => j.match_ ms) with
  | none => rw [find_loop_none _ _ _ _ hf]
  | some i =>
    rw [find_loop_some _ _ _ _ _ hf]
    simp [hmode]

/-- C9 witness: on the concrete `once`-mode cassette holding the GET and
POST interactions, the GET request returns the first (GET) interaction with
the cassette unchanged. -/
theorem find_match_first_wins_witness :
    cassetteOnce.find_match matcherRegistryEx "GET /users" =
      Except.ok (some interactionGet, cassetteOnce) := by
  have h := find_match_first_wins cassetteOnce matcherRegistryEx "GET /users"
    _ rfl (by decide)
  rw [h]
  rfl

/-- C10: every persist is preceded by sanitization: `eject` is exactly
`_save_cassette`, which first rewrites every held interaction with the
literal-to-tag substitution of the configured placeholders and then hands
the serializer exactly those sanitized payloads; `clear` additionally drops
all interactions first, so the persisted store is the empty interaction
list. -/
theorem save_sanitizes_before_persist (c : NewCassette) :
    c.eject = c._save_cassette ∧
    (c._save_cassette).1 = c.sanitize_interactions ∧
    (c._save_cassette).2 =
      ⟨[("http_interactions",
          StoreVal.interactions ((c.sanitize_interactions).interactions.map
            Interaction.json)),
        ("recorded_with", StoreVal.str "betamax/{version}")]⟩ ∧
    (c.sanitize_interactions).interactions =
      c.interactions.map
        (fun i => i.replace_all c.placeholders Direction.replaceToPlaceholder) ∧
    ((c.clear).1).interactions = [] ∧
    (c.clear).2 =
      ⟨[("http_interactions", StoreVal.interactions []),
        ("recorded_with", StoreVal.str "betamax/{version}")]⟩ :=
  ⟨rfl, rfl, rfl, rfl, rfl, rfl⟩
